import Mathlib

/-!
Verification development for the database-maintenance CLI `db_utils.py`
of the Multilingual-Note-Taking repository.

The script exposes three operations against a configured data directory:
a status check of the SQLite database, a timestamped backup of the
database file, and interactive cleanup of orphaned files in the upload
and PDF directories.  We embed the script shallowly: the filesystem is an
explicit state (regular files with byte contents, directories with their
immediate entry listings), the database content is the two path columns
the script queries, and each operation is a pure function from state and
operator inputs to a result record carrying the boolean return value, the
printed output, and the updated filesystem.
-/

namespace DbUtils

/-- Configuration provider (`app.core.config.settings`): the three
directory paths the script reads. -/
structure Settings where
  DATA_DIR : String
  UPLOAD_DIR : String
  PDF_DIR : String

/-- Association-list lookup keyed by strings; first binding wins,
mirroring an overwrite-by-prepend store. -/
def lookupStr {α : Type} : List (String × α) → String → Option α
  | [], _ => none
  | e :: rest, q => if e.1 = q then some e.2 else lookupStr rest q

/-- Filesystem state: regular files (absolute path, byte contents) and
directories (absolute path, immediate entry names as `os.listdir` would
return them). -/
structure FileSystem where
  files : List (String × List Nat)
  dirs : List (String × List String)
deriving DecidableEq

/-- Model of `os.path.isfile`. -/
def isFile (fs : FileSystem) (p : String) : Bool :=
  (lookupStr fs.files p).isSome

/-- Model of `os.path.isdir`. -/
def isDir (fs : FileSystem) (p : String) : Bool :=
  (lookupStr fs.dirs p).isSome

/-- Model of `os.path.exists`: true for a regular file or a directory. -/
def pathExists (fs : FileSystem) (p : String) : Bool :=
  isFile fs p || isDir fs p

/-- String starts-with, over the character lists. -/
def strStartsWith (s pre : String) : Bool :=
  pre.data.isPrefixOf s.data

/-- String ends-with, over the character lists. -/
def strEndsWith (s suf : String) : Bool :=
  suf.data.isSuffixOf s.data

/-- Model of `os.path.join` for POSIX paths in the cases the script exercises:
an absolute second component replaces the first, otherwise the parts are
joined with a single separator. -/
def osPathJoin (a b : String) : String :=
  if strStartsWith b "/" then b
  else if a = "" then b
  else if strEndsWith a "/" then a ++ b
  else a ++ "/" ++ b

/-- Drop every binding of a key from an association list. -/
def eraseKey {α : Type} : List (String × α) → String → List (String × α)
  | [], _ => []
  | e :: rest, q => if e.1 = q then eraseKey rest q else e :: eraseKey rest q

/-- Model of `os.remove`: drop every binding of the path from the file store
(directories are untouched). -/
def removeFile (fs : FileSystem) (p : String) : FileSystem :=
  { fs with files := eraseKey fs.files p }

/-- Writing file contents at a path (the destination side of
`shutil.copy2`): prepend the new binding; `lookupStr` sees the update. -/
def writeFile (fs : FileSystem) (p : String) (content : List Nat) : FileSystem :=
  { fs with files := (p, content) :: fs.files }

/-- Create a single directory if absent (one level of `os.makedirs`
with `exist_ok=True`). -/
def mkdirOne (fs : FileSystem) (d : String) : FileSystem :=
  match lookupStr fs.dirs d with
  | some _ => fs
  | none => { fs with dirs := (d, []) :: fs.dirs }

/-- Split a character list on the path separator. -/
def splitSlash : List Char → List (List Char)
  | [] => [[]]
  | c :: rest =>
    match splitSlash rest with
    | [] => [[]]
    | g :: gs => if c = '/' then [] :: g :: gs else (c :: g) :: gs

/-- Rejoin path components with the separator. -/
def joinSlash (parts : List (List Char)) : String :=
  String.mk (List.intercalate ['/'] parts)

/-- The proper ancestor paths of a path, shortest first: for
`/a/b/c` these are `/a` and `/a/b`. -/
def ancestorPaths (p : String) : List String :=
  let parts := (splitSlash p.data).dropLast
  (List.range parts.length).filterMap fun i =>
    let pre := joinSlash (parts.take (i + 1))
    if pre = "" then none else some pre

/-- Model of `os.makedirs(d, exist_ok=True)`: create the missing ancestors, then
the directory itself; never fails when the directory already exists. -/
def makedirs (fs : FileSystem) (d : String) : FileSystem :=
  mkdirOne ((ancestorPaths d).foldl mkdirOne fs) d

/-- Model of `str.lower()` for the ASCII answers the confirmation prompt
compares: lower-case every character. -/
def strLower (s : String) : String :=
  String.mk (s.data.map Char.toLower)

/-- Database content as the script sees it: the `audio_path` column of
`meetings` and the `file_path` column of `pdfs`, both nullable, plus the
integrity token `PRAGMA integrity_check` would report. -/
structure Database where
  meetings : List (Option String)
  pdfs : List (Option String)
  integrity : String

/-- Python truthiness of a nullable path column value: `NULL` and the
empty string are falsy. -/
def truthy : Option String → Bool
  | none => false
  | some s => !(s == "")

/-- The comprehension `[row[0] for row in cursor.fetchall() if row[0]]`:
keep the truthy column values. -/
def selectPaths (rows : List (Option String)) : List String :=
  rows.filterMap fun r => if truthy r then r else none

/-- Result of `check_database` / `backup_database`: boolean return
value, printed lines, filesystem afterwards. -/
structure OpResult where
  ok : Bool
  output : List String
  fs : FileSystem

/-- Operation `check_database`: report status of `DATA_DIR/meetings.db`.  A path
that exists but is not a regular file makes `sqlite3.connect` raise,
which the handler turns into a failure (the exception text is elided
from the modelled message). -/
def check_database (s : Settings) (fs : FileSystem) (db : Database) : OpResult :=
  let db_path := osPathJoin s.DATA_DIR "meetings.db"
  if pathExists fs db_path then
    if (lookupStr fs.files db_path).isSome then
      let db_size := ((lookupStr fs.files db_path).getD []).length
      { ok := true
        output := ["Database Status:",
                   "  - Location: " ++ db_path,
                   "  - Size: " ++ toString db_size ++ " bytes",
                   "  - Meetings: " ++ toString db.meetings.length,
                   "  - PDF records: " ++ toString db.pdfs.length,
                   "  - Integrity check: " ++ db.integrity]
        fs := fs }
    else
      { ok := false, output := ["Error checking database"], fs := fs }
  else
    { ok := false, output := ["Database not found at: " ++ db_path], fs := fs }

/-- Operation `backup_database`: copy the database file to
`DATA_DIR/backups/meetings_<timestamp>.db`.  The backup directory is
created before the copy, so a failing copy (source exists but is not a
regular file) still leaves the directory created. -/
def backup_database (s : Settings) (fs : FileSystem) (timestamp : String) : OpResult :=
  let db_path := osPathJoin s.DATA_DIR "meetings.db"
  if pathExists fs db_path then
    let backup_dir := osPathJoin s.DATA_DIR "backups"
    let fs1 := makedirs fs backup_dir
    let backup_path := osPathJoin backup_dir ("meetings_" ++ timestamp ++ ".db")
    match lookupStr fs.files db_path with
    | some bytes =>
      { ok := true
        output := ["Database backed up to: " ++ backup_path]
        fs := writeFile fs1 backup_path bytes }
    | none =>
      { ok := false, output := ["Error backing up database"], fs := fs1 }
  else
    { ok := false, output := ["Database not found at: " ++ db_path], fs := fs }

/-- The per-directory orphan scan (lines 111-122 of the script): for
each listed entry, join it to the directory; keep it when it is a
regular file whose joined path is not among the reference paths. -/
def scanOrphans (fs : FileSystem) (dir : String) (refPaths : List String)
    (entries : List String) : List String :=
  entries.filterMap fun name =>
    let file_path := osPathJoin dir name
    if isFile fs file_path ∧ file_path ∉ refPaths then some file_path else none

/-- Result of the deletion loop: filesystem afterwards, the reported
counter, successfully deleted paths in order, failure messages in
order. -/
structure DeleteResult where
  fs : FileSystem
  deleted_count : Nat
  deleted : List String
  failOutput : List String

/-- The deletion loop (lines 138-144): delete each path, catching and
logging per-file failures.  `removeFails` models paths whose `os.remove`
raises for environmental reasons (permissions); removal of a path that
is no longer a regular file also raises. -/
def deleteFiles (fs : FileSystem) (removeFails : List String) :
    List String → DeleteResult
  | [] => { fs := fs, deleted_count := 0, deleted := [], failOutput := [] }
  | p :: rest =>
    if p ∈ removeFails ∨ (lookupStr fs.files p).isNone then
      let r := deleteFiles fs removeFails rest
      { r with failOutput := ("Failed to delete " ++ p) :: r.failOutput }
    else
      let r := deleteFiles (removeFile fs p) removeFails rest
      { r with deleted_count := r.deleted_count + 1, deleted := p :: r.deleted }

/-- Result of `clean_orphaned_files`: boolean return value, printed
lines, filesystem afterwards, whether the operator was prompted, the two
orphan lists, and the successfully deleted paths. -/
structure CleanResult where
  ok : Bool
  output : List String
  fs : FileSystem
  prompted : Bool
  upload_files : List String
  pdf_files : List String
  deleted : List String

/-- Operation `clean_orphaned_files`: query the two path columns, list both
directories, classify orphans, then (after confirmation) delete them.
`answer` is the operator's reply to the prompt; a directory listing that
raises (the directory is absent) is caught by the outer handler.  The
exception texts of the modelled error messages are elided. -/
def clean_orphaned_files (s : Settings) (fs : FileSystem) (db : Database)
    (answer : String) (removeFails : List String) : CleanResult :=
  let db_path := osPathJoin s.DATA_DIR "meetings.db"
  if pathExists fs db_path then
    if (lookupStr fs.files db_path).isSome then
      let db_audio_paths := selectPaths db.meetings
      let db_pdf_paths := selectPaths db.pdfs
      match lookupStr fs.dirs s.UPLOAD_DIR with
      | none =>
        { ok := false, output := ["Error cleaning orphaned files"], fs := fs
          prompted := false, upload_files := [], pdf_files := [], deleted := [] }
      | some uploadEntries =>
        match lookupStr fs.dirs s.PDF_DIR with
        | none =>
          { ok := false, output := ["Error cleaning orphaned files"], fs := fs
            prompted := false, upload_files := [], pdf_files := [], deleted := [] }
        | some pdfEntries =>
          let upload_files := scanOrphans fs s.UPLOAD_DIR db_audio_paths uploadEntries
          let pdf_files := scanOrphans fs s.PDF_DIR db_pdf_paths pdfEntries
          let countsOut := ["Found " ++ toString upload_files.length ++ " orphaned upload files",
                            "Found " ++ toString pdf_files.length ++ " orphaned PDF files"]
          if upload_files.isEmpty && pdf_files.isEmpty then
            { ok := true, output := countsOut ++ ["No orphaned files to clean up"]
              fs := fs, prompted := false, upload_files := upload_files
              pdf_files := pdf_files, deleted := [] }
          else if strLower answer ≠ "y" then
            { ok := false, output := countsOut ++ ["Cleanup aborted"], fs := fs
              prompted := true, upload_files := upload_files
              pdf_files := pdf_files, deleted := [] }
          else
            let r := deleteFiles fs removeFails (upload_files ++ pdf_files)
            { ok := true
              output := countsOut ++ r.failOutput ++
                ["Deleted " ++ toString r.deleted_count ++ " orphaned files"]
              fs := r.fs, prompted := true, upload_files := upload_files
              pdf_files := pdf_files, deleted := r.deleted }
    else
      { ok := false, output := ["Error cleaning orphaned files"], fs := fs
        prompted := false, upload_files := [], pdf_files := [], deleted := [] }
  else
    { ok := false, output := ["Database not found at: " ++ db_path], fs := fs
      prompted := false, upload_files := [], pdf_files := [], deleted := [] }

/-- A wall-clock instant at second resolution, the input of
`datetime.datetime.now().strftime("%Y%m%d_%H%M%S")`. -/
structure DateTime where
  year : Nat
  month : Nat
  day : Nat
  hour : Nat
  minute : Nat
  second : Nat

/-- Zero-pad a numeral to two digits (`%m`, `%d`, `%H`, `%M`, `%S`). -/
def pad2 (n : Nat) : String :=
  if n < 10 then "0" ++ toString n else toString n

/-- Zero-pad a numeral to four digits (`%Y`). -/
def pad4 (n : Nat) : String :=
  if n < 10 then "000" ++ toString n
  else if n < 100 then "00" ++ toString n
  else if n < 1000 then "0" ++ toString n
  else toString n

/-- Model of `strftime("%Y%m%d_%H%M%S")`. -/
def strftimeTimestamp (t : DateTime) : String :=
  pad4 t.year ++ pad2 t.month ++ pad2 t.day ++ "_" ++
    pad2 t.hour ++ pad2 t.minute ++ pad2 t.second

/-- The three `store_true` flags of the argument parser. -/
structure Args where
  check : Bool
  backup : Bool
  clean : Bool
deriving DecidableEq

/-- The all-false default of the parser. -/
def Args.default : Args := ⟨false, false, false⟩

/-- Model of `argparse` over the three flags: each recognized flag sets its
field; any other token is a usage error (`none`). -/
def parseArgs : List String → Args → Option Args
  | [], a => some a
  | arg :: rest, a =>
    if arg = "--check" then parseArgs rest { a with check := true }
    else if arg = "--backup" then parseArgs rest { a with backup := true }
    else if arg = "--clean" then parseArgs rest { a with clean := true }
    else none

/-- Names of the three operations, for the dispatch trace. -/
inductive Op
  | check
  | backup
  | clean
deriving DecidableEq

/-- Result of `main`: printed lines, filesystem afterwards, and the
operations dispatched in order. -/
structure MainResult where
  output : List String
  fs : FileSystem
  trace : List Op
deriving DecidableEq

/-- Entry point `main`: parse the flags; with none set, print help and stop; else
create `DATA_DIR` and dispatch check, then backup, then clean, threading
the filesystem through the operations. -/
def main (s : Settings) (fs : FileSystem) (db : Database) (argv : List String)
    (now : DateTime) (answer : String) (removeFails : List String) : MainResult :=
  match parseArgs argv Args.default with
  | none => { output := ["usage error"], fs := fs, trace := [] }
  | some args =>
    if args.check || args.backup || args.clean then
      let fs0 := makedirs fs s.DATA_DIR
      let st1 :=
        if args.check then
          let r := check_database s fs0 db
          (r.output, r.fs, [Op.check])
        else ([], fs0, [])
      let st2 :=
        if args.backup then
          let r := backup_database s st1.2.1 (strftimeTimestamp now)
          (st1.1 ++ r.output, r.fs, st1.2.2 ++ [Op.backup])
        else st1
      let st3 :=
        if args.clean then
          let r := clean_orphaned_files s st2.2.1 db answer removeFails
          (st2.1 ++ r.output, r.fs, st2.2.2 ++ [Op.clean])
        else st2
      { output := st3.1, fs := st3.2.1, trace := st3.2.2 }
    else
      { output := ["help"], fs := fs, trace := [] }

/-! ### Concrete fixtures used to instantiate the theorems -/

/-- Fixture configuration. -/
def S0 : Settings := ⟨"/data", "/up", "/pdf"⟩

/-- Fixture filesystem: database file present, three uploads, one PDF. -/
def fsFull : FileSystem :=
  ⟨[("/data/meetings.db", [1, 2, 3]), ("/up/a.mp3", [0]), ("/up/b.mp3", [0]),
    ("/up/c.mp3", [0]), ("/pdf/x.pdf", [7])],
   [("/up", ["a.mp3", "b.mp3", "c.mp3"]), ("/pdf", ["x.pdf"])]⟩

/-- Fixture filesystem with no PDF directory (its listing raises). -/
def fsNoPdfDir : FileSystem :=
  ⟨[("/data/meetings.db", [1, 2, 3]), ("/up/a.mp3", [0])],
   [("/up", ["a.mp3"])]⟩

/-- Empty fixture filesystem: the database file is absent. -/
def fsEmpty : FileSystem := ⟨[], []⟩

/-- Fixture database covering `a.mp3`, `b.mp3` and the PDF: only
`c.mp3` is orphaned. -/
def db0 : Database :=
  ⟨[some "/up/a.mp3", some "/up/b.mp3"], [some "/pdf/x.pdf"], "ok"⟩

/-- Fixture database covering only `a.mp3` and the PDF: `b.mp3` and
`c.mp3` are orphaned. -/
def db1 : Database :=
  ⟨[some "/up/a.mp3"], [some "/pdf/x.pdf"], "ok"⟩

/-- Fixture database covering every file: nothing is orphaned. -/
def dbAll : Database :=
  ⟨[some "/up/a.mp3", some "/up/b.mp3", some "/up/c.mp3"],
   [some "/pdf/x.pdf"], "ok"⟩

end DbUtils

namespace DbUtils

/-! ### Helper lemmas -/

theorem lookupStr_eraseKey {α : Type} (l : List (String × α)) (p q : String) :
    lookupStr (eraseKey l p) q = if q = p then none else lookupStr l q := by
  induction l with
  | nil => simp [eraseKey, lookupStr]
  | cons e rest ih =>
    simp only [eraseKey, lookupStr]
    by_cases h : e.1 = p
    · rw [if_pos h, ih]
      by_cases hq : q = p
      · simp [hq]
      · have hne : ¬ e.1 = q := fun hc => hq (by rw [← hc, h])
        simp [hq, lookupStr, hne]
    · rw [if_neg h]
      simp only [lookupStr]
      by_cases hk : e.1 = q
      · have hq : ¬ q = p := fun hc => h (by rw [hk, hc])
        simp [hk, hq]
      · simp [hk, ih]

theorem lookupStr_removeFile (fs : FileSystem) (p q : String) :
    lookupStr (removeFile fs p).files q =
      if q = p then none else lookupStr fs.files q := by
  simpa [removeFile] using lookupStr_eraseKey fs.files p q

theorem removeFile_dirs (fs : FileSystem) (p : String) :
    (removeFile fs p).dirs = fs.dirs := rfl

theorem mem_scanOrphans {fs : FileSystem} {dir : String}
    {refs entries : List String} {q : String} :
    q ∈ scanOrphans fs dir refs entries ↔
      ∃ name ∈ entries, q = osPathJoin dir name ∧
        isFile fs q = true ∧ q ∉ refs := by
  simp only [scanOrphans, List.mem_filterMap]
  constructor
  · rintro ⟨name, hname, hsome⟩
    by_cases h : isFile fs (osPathJoin dir name) = true ∧ osPathJoin dir name ∉ refs
    · rw [if_pos h] at hsome
      cases hsome
      exact ⟨name, hname, rfl, h.1, h.2⟩
    · rw [if_neg h] at hsome
      cases hsome
  · rintro ⟨name, hname, rfl, hf, hmem⟩
    exact ⟨name, hname, by rw [if_pos ⟨hf, hmem⟩]⟩

end DbUtils

namespace DbUtils

theorem clean_eq_notfound
    (s : Settings) (fs : FileSystem) (db : Database) (answer : String)
    (rf : List String)
    (h : pathExists fs (osPathJoin s.DATA_DIR "meetings.db") = false) :
    clean_orphaned_files s fs db answer rf =
      { ok := false
        output := ["Database not found at: " ++ osPathJoin s.DATA_DIR "meetings.db"]
        fs := fs
        prompted := false
        upload_files := []
        pdf_files := []
        deleted := [] } := by
  simp [clean_orphaned_files, h]

theorem clean_eq_listdir_fail
    (s : Settings) (fs : FileSystem) (db : Database) (answer : String)
    (rf : List String)
    (hdb : (lookupStr fs.files (osPathJoin s.DATA_DIR "meetings.db")).isSome = true)
    (h : lookupStr fs.dirs s.UPLOAD_DIR = none ∨ lookupStr fs.dirs s.PDF_DIR = none) :
    clean_orphaned_files s fs db answer rf =
      { ok := false
        output := ["Error cleaning orphaned files"]
        fs := fs
        prompted := false
        upload_files := []
        pdf_files := []
        deleted := [] } := by
  rcases h with h | h
  · simp [clean_orphaned_files, pathExists, isFile, hdb, h]
  · rcases hu : lookupStr fs.dirs s.UPLOAD_DIR with _ | uE
    · simp [clean_orphaned_files, pathExists, isFile, hdb, hu]
    · simp [clean_orphaned_files, pathExists, isFile, hdb, hu, h]

theorem clean_eq_no_orphans
    (s : Settings) (fs : FileSystem) (db : Database) (answer : String)
    (rf : List String) (uE pE : List String)
    (hdb : (lookupStr fs.files (osPathJoin s.DATA_DIR "meetings.db")).isSome = true)
    (hu : lookupStr fs.dirs s.UPLOAD_DIR = some uE)
    (hp : lookupStr fs.dirs s.PDF_DIR = some pE)
    (he : ((scanOrphans fs s.UPLOAD_DIR (selectPaths db.meetings) uE).isEmpty &&
           (scanOrphans fs s.PDF_DIR (selectPaths db.pdfs) pE).isEmpty) = true) :
    clean_orphaned_files s fs db answer rf =
      { ok := true
        output := ["Found " ++ toString (scanOrphans fs s.UPLOAD_DIR (selectPaths db.meetings) uE).length ++ " orphaned upload files",
                   "Found " ++ toString (scanOrphans fs s.PDF_DIR (selectPaths db.pdfs) pE).length ++ " orphaned PDF files",
                   "No orphaned files to clean up"]
        fs := fs
        prompted := false
        upload_files := scanOrphans fs s.UPLOAD_DIR (selectPaths db.meetings) uE
        pdf_files := scanOrphans fs s.PDF_DIR (selectPaths db.pdfs) pE
        deleted := [] } := by
  simp [clean_orphaned_files, pathExists, isFile, hdb, hu, hp, he]

theorem clean_eq_abort
    (s : Settings) (fs : FileSystem) (db : Database) (answer : String)
    (rf : List String) (uE pE : List String)
    (hdb : (lookupStr fs.files (osPathJoin s.DATA_DIR "meetings.db")).isSome = true)
    (hu : lookupStr fs.dirs s.UPLOAD_DIR = some uE)
    (hp : lookupStr fs.dirs s.PDF_DIR = some pE)
    (hne : ((scanOrphans fs s.UPLOAD_DIR (selectPaths db.meetings) uE).isEmpty &&
            (scanOrphans fs s.PDF_DIR (selectPaths db.pdfs) pE).isEmpty) = false)
    (hans : ¬ strLower answer = "y") :
    clean_orphaned_files s fs db answer rf =
      { ok := false
        output := ["Found " ++ toString (scanOrphans fs s.UPLOAD_DIR (selectPaths db.meetings) uE).length ++ " orphaned upload files",
                   "Found " ++ toString (scanOrphans fs s.PDF_DIR (selectPaths db.pdfs) pE).length ++ " orphaned PDF files",
                   "Cleanup aborted"]
        fs := fs
        prompted := true
        upload_files := scanOrphans fs s.UPLOAD_DIR (selectPaths db.meetings) uE
        pdf_files := scanOrphans fs s.PDF_DIR (selectPaths db.pdfs) pE
        deleted := [] } := by
  simp [clean_orphaned_files, pathExists, isFile, hdb, hu, hp, hne, hans]

theorem clean_eq_confirmed
    (s : Settings) (fs : FileSystem) (db : Database) (answer : String)
    (rf : List String) (uE pE : List String)
    (hdb : (lookupStr fs.files (osPathJoin s.DATA_DIR "meetings.db")).isSome = true)
    (hu : lookupStr fs.dirs s.UPLOAD_DIR = some uE)
    (hp : lookupStr fs.dirs s.PDF_DIR = some pE)
    (hne : ((scanOrphans fs s.UPLOAD_DIR (selectPaths db.meetings) uE).isEmpty &&
            (scanOrphans fs s.PDF_DIR (selectPaths db.pdfs) pE).isEmpty) = false)
    (hans : strLower answer = "y") :
    clean_orphaned_files s fs db answer rf =
      { ok := true
        output := ["Found " ++ toString (scanOrphans fs s.UPLOAD_DIR (selectPaths db.meetings) uE).length ++ " orphaned upload files",
                   "Found " ++ toString (scanOrphans fs s.PDF_DIR (selectPaths db.pdfs) pE).length ++ " orphaned PDF files"] ++
          (deleteFiles fs rf (scanOrphans fs s.UPLOAD_DIR (selectPaths db.meetings) uE ++
            scanOrphans fs s.PDF_DIR (selectPaths db.pdfs) pE)).failOutput ++
          ["Deleted " ++ toString (deleteFiles fs rf (scanOrphans fs s.UPLOAD_DIR (selectPaths db.meetings) uE ++
            scanOrphans fs s.PDF_DIR (selectPaths db.pdfs) pE)).deleted_count ++ " orphaned files"]
        fs := (deleteFiles fs rf (scanOrphans fs s.UPLOAD_DIR (selectPaths db.meetings) uE ++
          scanOrphans fs s.PDF_DIR (selectPaths db.pdfs) pE)).fs
        prompted := true
        upload_files := scanOrphans fs s.UPLOAD_DIR (selectPaths db.meetings) uE
        pdf_files := scanOrphans fs s.PDF_DIR (selectPaths db.pdfs) pE
        deleted := (deleteFiles fs rf (scanOrphans fs s.UPLOAD_DIR (selectPaths db.meetings) uE ++
          scanOrphans fs s.PDF_DIR (selectPaths db.pdfs) pE)).deleted } := by
  simp [clean_orphaned_files, pathExists, isFile, hdb, hu, hp, hne, hans]

end DbUtils

namespace DbUtils

theorem clean_eq_connect_fail
    (s : Settings) (fs : FileSystem) (db : Database) (answer : String)
    (rf : List String)
    (hpe : pathExists fs (osPathJoin s.DATA_DIR "meetings.db") = true)
    (hf : lookupStr fs.files (osPathJoin s.DATA_DIR "meetings.db") = none) :
    clean_orphaned_files s fs db answer rf =
      { ok := false
        output := ["Error cleaning orphaned files"]
        fs := fs
        prompted := false
        upload_files := []
        pdf_files := []
        deleted := [] } := by
  simp [clean_orphaned_files, hpe, hf]

theorem clean_fields_eq
    (s : Settings) (fs : FileSystem) (db : Database) (answer : String)
    (rf : List String) (uE pE : List String)
    (hdb : (lookupStr fs.files (osPathJoin s.DATA_DIR "meetings.db")).isSome = true)
    (hu : lookupStr fs.dirs s.UPLOAD_DIR = some uE)
    (hp : lookupStr fs.dirs s.PDF_DIR = some pE) :
    (clean_orphaned_files s fs db answer rf).upload_files =
      scanOrphans fs s.UPLOAD_DIR (selectPaths db.meetings) uE ∧
    (clean_orphaned_files s fs db answer rf).pdf_files =
      scanOrphans fs s.PDF_DIR (selectPaths db.pdfs) pE := by
  by_cases he : ((scanOrphans fs s.UPLOAD_DIR (selectPaths db.meetings) uE).isEmpty &&
      (scanOrphans fs s.PDF_DIR (selectPaths db.pdfs) pE).isEmpty) = true
  · rw [clean_eq_no_orphans s fs db answer rf uE pE hdb hu hp he]
    exact ⟨rfl, rfl⟩
  · have hne : ((scanOrphans fs s.UPLOAD_DIR (selectPaths db.meetings) uE).isEmpty &&
        (scanOrphans fs s.PDF_DIR (selectPaths db.pdfs) pE).isEmpty) = false := by
      simpa using he
    by_cases hans : strLower answer = "y"
    · rw [clean_eq_confirmed s fs db answer rf uE pE hdb hu hp hne hans]
      exact ⟨rfl, rfl⟩
    · rw [clean_eq_abort s fs db answer rf uE pE hdb hu hp hne hans]
      exact ⟨rfl, rfl⟩

theorem clean_congr
    (s : Settings) (fs : FileSystem) (answer : String) (rf : List String)
    (db1 db2 : Database)
    (hm : selectPaths db1.meetings = selectPaths db2.meetings)
    (hp : selectPaths db1.pdfs = selectPaths db2.pdfs) :
    clean_orphaned_files s fs db1 answer rf =
      clean_orphaned_files s fs db2 answer rf := by
  simp only [clean_orphaned_files, hm, hp]

end DbUtils

namespace DbUtils

/-- C1: for every database state and pair of directory listings,
`clean_orphaned_files` classifies as orphaned exactly the immediate
regular-file entries of `UPLOAD_DIR` whose joined path is not among the
(non-null) `audio_path` values of `meetings`, and those of `PDF_DIR`
whose joined path is not among the (non-null) `file_path` values of
`pdfs` — a set difference per directory, against the corresponding
reference set only, with membership by exact string equality. -/
theorem clean_orphan_classification
    (s : Settings) (fs : FileSystem) (db : Database) (answer : String)
    (rf : List String) (uE pE : List String)
    (hdb : (lookupStr fs.files (osPathJoin s.DATA_DIR "meetings.db")).isSome = true)
    (hu : lookupStr fs.dirs s.UPLOAD_DIR = some uE)
    (hp : lookupStr fs.dirs s.PDF_DIR = some pE)
    (q : String) :
    (q ∈ (clean_orphaned_files s fs db answer rf).upload_files ↔
      ∃ name ∈ uE, q = osPathJoin s.UPLOAD_DIR name ∧
        isFile fs q = true ∧ q ∉ selectPaths db.meetings) ∧
    (q ∈ (clean_orphaned_files s fs db answer rf).pdf_files ↔
      ∃ name ∈ pE, q = osPathJoin s.PDF_DIR name ∧
        isFile fs q = true ∧ q ∉ selectPaths db.pdfs) := by
  obtain ⟨h1, h2⟩ := clean_fields_eq s fs db answer rf uE pE hdb hu hp
  rw [h1, h2]
  exact ⟨mem_scanOrphans, mem_scanOrphans⟩

/-- Witness for C1 at a concrete state: `c.mp3` is listed, a regular
file, and uncovered, hence orphaned; the PDF is covered, hence not. -/
theorem clean_orphan_classification_witness :
    ("/up/c.mp3" ∈ (clean_orphaned_files S0 fsFull db0 "y" []).upload_files ↔
      ∃ name ∈ ["a.mp3", "b.mp3", "c.mp3"], "/up/c.mp3" = osPathJoin S0.UPLOAD_DIR name ∧
        isFile fsFull "/up/c.mp3" = true ∧ "/up/c.mp3" ∉ selectPaths db0.meetings) ∧
    ("/up/c.mp3" ∈ (clean_orphaned_files S0 fsFull db0 "y" []).pdf_files ↔
      ∃ name ∈ ["x.pdf"], "/up/c.mp3" = osPathJoin S0.PDF_DIR name ∧
        isFile fsFull "/up/c.mp3" = true ∧ "/up/c.mp3" ∉ selectPaths db0.pdfs) :=
  clean_orphan_classification S0 fsFull db0 "y" [] ["a.mp3", "b.mp3", "c.mp3"]
    ["x.pdf"] (by decide) (by decide) (by decide) "/up/c.mp3"

/-- C2: rows whose `audio_path` (resp. `file_path`) is null or empty are
excluded from the reference sets, so removing such a row anywhere in
either table leaves the whole run of `clean_orphaned_files`
unchanged — a null-path record never covers any file. -/
theorem clean_null_paths_excluded
    (s : Settings) (fs : FileSystem) (answer : String) (rf : List String)
    (m1 m2 p1 p2 : List (Option String)) (rm rp : Option String) (integ : String)
    (hm : truthy rm = false) (hpE : truthy rp = false) :
    clean_orphaned_files s fs ⟨m1 ++ rm :: m2, p1 ++ rp :: p2, integ⟩ answer rf =
      clean_orphaned_files s fs ⟨m1 ++ m2, p1 ++ p2, integ⟩ answer rf := by
  apply clean_congr
  · show selectPaths (m1 ++ rm :: m2) = selectPaths (m1 ++ m2)
    simp [selectPaths, List.filterMap_append, List.filterMap_cons, hm]
  · show selectPaths (p1 ++ rp :: p2) = selectPaths (p1 ++ p2)
    simp [selectPaths, List.filterMap_append, List.filterMap_cons, hpE]

/-- Witness for C2: inserting a null `audio_path` row and an
empty-string `file_path` row changes nothing about the run. -/
theorem clean_null_paths_excluded_witness :
    clean_orphaned_files S0 fsFull
        ⟨[some "/up/a.mp3"] ++ none :: [some "/up/b.mp3"],
         [] ++ some "" :: [some "/pdf/x.pdf"], "ok"⟩ "y" [] =
      clean_orphaned_files S0 fsFull
        ⟨[some "/up/a.mp3"] ++ [some "/up/b.mp3"],
         [] ++ [some "/pdf/x.pdf"], "ok"⟩ "y" [] :=
  clean_null_paths_excluded S0 fsFull "y" []
    [some "/up/a.mp3"] [some "/up/b.mp3"] [] [some "/pdf/x.pdf"]
    none (some "") "ok" (by decide) (by decide)

/-- C3: when nothing exists at `DATA_DIR/meetings.db`, each of the three
operations prints the not-found message, returns failure, and leaves
the filesystem unchanged (and cleanup deletes nothing). -/
theorem missing_database_ops_fail
    (s : Settings) (fs : FileSystem) (db : Database)
    (answer timestamp : String) (rf : List String)
    (h : pathExists fs (osPathJoin s.DATA_DIR "meetings.db") = false) :
    ((check_database s fs db).ok = false ∧
     (check_database s fs db).output =
       ["Database not found at: " ++ osPathJoin s.DATA_DIR "meetings.db"] ∧
     (check_database s fs db).fs = fs) ∧
    ((backup_database s fs timestamp).ok = false ∧
     (backup_database s fs timestamp).output =
       ["Database not found at: " ++ osPathJoin s.DATA_DIR "meetings.db"] ∧
     (backup_database s fs timestamp).fs = fs) ∧
    ((clean_orphaned_files s fs db answer rf).ok = false ∧
     (clean_orphaned_files s fs db answer rf).output =
       ["Database not found at: " ++ osPathJoin s.DATA_DIR "meetings.db"] ∧
     (clean_orphaned_files s fs db answer rf).fs = fs ∧
     (clean_orphaned_files s fs db answer rf).deleted = []) := by
  refine ⟨?_, ?_, ?_⟩
  · simp [check_database, h]
  · simp [backup_database, h]
  · rw [clean_eq_notfound s fs db answer rf h]
    exact ⟨rfl, rfl, rfl, rfl⟩

/-- Witness for C3 on the empty filesystem. -/
theorem missing_database_ops_fail_witness :
    ((check_database S0 fsEmpty db0).ok = false ∧
     (check_database S0 fsEmpty db0).output =
       ["Database not found at: " ++ osPathJoin S0.DATA_DIR "meetings.db"] ∧
     (check_database S0 fsEmpty db0).fs = fsEmpty) ∧
    ((backup_database S0 fsEmpty "20260101_120000").ok = false ∧
     (backup_database S0 fsEmpty "20260101_120000").output =
       ["Database not found at: " ++ osPathJoin S0.DATA_DIR "meetings.db"] ∧
     (backup_database S0 fsEmpty "20260101_120000").fs = fsEmpty) ∧
    ((clean_orphaned_files S0 fsEmpty db0 "y" []).ok = false ∧
     (clean_orphaned_files S0 fsEmpty db0 "y" []).output =
       ["Database not found at: " ++ osPathJoin S0.DATA_DIR "meetings.db"] ∧
     (clean_orphaned_files S0 fsEmpty db0 "y" []).fs = fsEmpty ∧
     (clean_orphaned_files S0 fsEmpty db0 "y" []).deleted = []) :=
  missing_database_ops_fail S0 fsEmpty db0 "y" "20260101_120000" [] (by decide)

end DbUtils

namespace DbUtils

theorem mkdirOne_files (fs : FileSystem) (d : String) :
    (mkdirOne fs d).files = fs.files := by
  cases h : lookupStr fs.dirs d <;> simp [mkdirOne, h]

theorem foldl_mkdirOne_files (l : List String) :
    ∀ fs : FileSystem, (l.foldl mkdirOne fs).files = fs.files := by
  induction l with
  | nil => intro fs; rfl
  | cons d rest ih =>
    intro fs
    simp only [List.foldl_cons]
    rw [ih (mkdirOne fs d), mkdirOne_files]

theorem makedirs_files (fs : FileSystem) (d : String) :
    (makedirs fs d).files = fs.files := by
  rw [makedirs, mkdirOne_files, foldl_mkdirOne_files]

theorem isDir_mkdirOne_self (fs : FileSystem) (d : String) :
    isDir (mkdirOne fs d) d = true := by
  cases h : lookupStr fs.dirs d with
  | none => simp [mkdirOne, h, isDir, lookupStr]
  | some e => simp [mkdirOne, h, isDir]

theorem isDir_mkdirOne_mono (fs : FileSystem) (d x : String)
    (h : isDir fs x = true) : isDir (mkdirOne fs d) x = true := by
  cases hd : lookupStr fs.dirs d with
  | none =>
    simp only [mkdirOne, hd, isDir, lookupStr]
    by_cases hx : d = x
    · simp [hx]
    · simpa [hx, isDir] using h
  | some e => simpa [mkdirOne, hd] using h

theorem isDir_foldl_mkdirOne_mono (l : List String) :
    ∀ (fs : FileSystem) (x : String), isDir fs x = true →
      isDir (l.foldl mkdirOne fs) x = true := by
  induction l with
  | nil => intro fs x h; exact h
  | cons d rest ih =>
    intro fs x h
    simp only [List.foldl_cons]
    exact ih (mkdirOne fs d) x (isDir_mkdirOne_mono fs d x h)

theorem isDir_makedirs_self (fs : FileSystem) (d : String) :
    isDir (makedirs fs d) d = true :=
  isDir_mkdirOne_self _ d

theorem isDir_makedirs_mono (fs : FileSystem) (d x : String)
    (h : isDir fs x = true) : isDir (makedirs fs d) x = true :=
  isDir_mkdirOne_mono _ d x (isDir_foldl_mkdirOne_mono _ fs x h)

theorem isDir_congr (fs1 fs2 : FileSystem) (x : String)
    (h : fs1.dirs = fs2.dirs) : isDir fs1 x = isDir fs2 x := by
  simp [isDir, h]

theorem deleteFiles_fs_dirs (rf : List String) (l : List String) :
    ∀ fs : FileSystem, (deleteFiles fs rf l).fs.dirs = fs.dirs := by
  induction l with
  | nil => intro fs; rfl
  | cons p rest ih =>
    intro fs
    simp only [deleteFiles]
    split
    · exact ih fs
    · exact (ih (removeFile fs p)).trans rfl

theorem check_database_fs (s : Settings) (fs : FileSystem) (db : Database) :
    (check_database s fs db).fs = fs := by
  simp only [check_database]
  split
  · split <;> rfl
  · rfl

end DbUtils

namespace DbUtils

theorem deleteFiles_spec (rf : List String) (l : List String) :
    ∀ fs : FileSystem, l.Nodup →
      (∀ p ∈ l, (lookupStr fs.files p).isSome = true) →
      (deleteFiles fs rf l).deleted = l.filter (fun p => decide (p ∉ rf)) ∧
      (deleteFiles fs rf l).deleted_count =
        (l.filter (fun p => decide (p ∉ rf))).length ∧
      (deleteFiles fs rf l).failOutput =
        (l.filter (fun p => decide (p ∈ rf))).map (fun p => "Failed to delete " ++ p) ∧
      ∀ q, lookupStr (deleteFiles fs rf l).fs.files q =
        if q ∈ l.filter (fun p => decide (p ∉ rf)) then none
        else lookupStr fs.files q := by
  induction l with
  | nil =>
    intro fs _ _
    refine ⟨rfl, rfl, rfl, ?_⟩
    intro q
    simp [deleteFiles]
  | cons p rest ih =>
    intro fs hnd hsome
    obtain ⟨hpnotin, hrestnd⟩ := List.nodup_cons.mp hnd
    have hps : (lookupStr fs.files p).isSome = true :=
      hsome p (List.mem_cons_self p rest)
    by_cases hmem : p ∈ rf
    · have hcond : p ∈ rf ∨ (lookupStr fs.files p).isNone = true := Or.inl hmem
      obtain ⟨h1, h2, h3, h4⟩ :=
        ih fs hrestnd (fun q hq => hsome q (List.mem_cons_of_mem p hq))
      refine ⟨?_, ?_, ?_, ?_⟩
      · simpa [deleteFiles, hcond, List.filter_cons, hmem] using h1
      · simpa [deleteFiles, hcond, List.filter_cons, hmem] using h2
      · simp [deleteFiles, hcond, List.filter_cons, hmem, h3]
      · intro q
        simpa [deleteFiles, hcond, List.filter_cons, hmem] using h4 q
    · obtain ⟨v, hval⟩ := Option.isSome_iff_exists.mp hps
      have hsome2 : ∀ q ∈ rest, (lookupStr (removeFile fs p).files q).isSome = true := by
        intro q hq
        rw [lookupStr_removeFile]
        have hqp : ¬ q = p := fun e => hpnotin (e ▸ hq)
        rw [if_neg hqp]
        exact hsome q (List.mem_cons_of_mem p hq)
      obtain ⟨h1, h2, h3, h4⟩ := ih (removeFile fs p) hrestnd hsome2
      refine ⟨?_, ?_, ?_, ?_⟩
      · simpa [deleteFiles, hval, List.filter_cons, hmem] using h1
      · simpa [deleteFiles, hval, List.filter_cons, hmem] using h2
      · simpa [deleteFiles, hval, List.filter_cons, hmem] using h3
      · intro q
        have hq4 := h4 q
        rw [lookupStr_removeFile] at hq4
        have hfs : (deleteFiles fs rf (p :: rest)).fs =
            (deleteFiles (removeFile fs p) rf rest).fs := by
          simp [deleteFiles, hval, hmem]
        rw [hfs, hq4]
        have hfc : (p :: rest).filter (fun x => decide (x ∉ rf)) =
            p :: rest.filter (fun x => decide (x ∉ rf)) := by
          simp [List.filter_cons, hmem]
        rw [hfc]
        by_cases hqp : q = p
        · subst hqp
          have hnf : q ∉ rest.filter (fun x => decide (x ∉ rf)) :=
            fun hc => hpnotin (List.mem_of_mem_filter hc)
          rw [if_neg hnf, if_pos rfl, if_pos (List.mem_cons_self q _)]
        · by_cases hqr : q ∈ rest.filter (fun x => decide (x ∉ rf))
          · rw [if_pos hqr, if_pos (List.mem_cons_of_mem p hqr)]
          · have hnm : q ∉ p :: rest.filter (fun x => decide (x ∉ rf)) := by
              intro hc
              rcases List.mem_cons.mp hc with hc | hc
              · exact hqp hc
              · exact hqr hc
            rw [if_neg hqr, if_neg hqp, if_neg hnm]

theorem clean_fs_dirs (s : Settings) (fs : FileSystem) (db : Database)
    (answer : String) (rf : List String) :
    (clean_orphaned_files s fs db answer rf).fs.dirs = fs.dirs := by
  by_cases hpe : pathExists fs (osPathJoin s.DATA_DIR "meetings.db") = true
  · rcases hf : lookupStr fs.files (osPathJoin s.DATA_DIR "meetings.db") with _ | bytes
    · rw [clean_eq_connect_fail s fs db answer rf hpe hf]
    · have hdb : (lookupStr fs.files (osPathJoin s.DATA_DIR "meetings.db")).isSome = true := by
        rw [hf]; rfl
      rcases hu : lookupStr fs.dirs s.UPLOAD_DIR with _ | uE
      · rw [clean_eq_listdir_fail s fs db answer rf hdb (Or.inl hu)]
      · rcases hp : lookupStr fs.dirs s.PDF_DIR with _ | pE
        · rw [clean_eq_listdir_fail s fs db answer rf hdb (Or.inr hp)]
        · by_cases he : ((scanOrphans fs s.UPLOAD_DIR (selectPaths db.meetings) uE).isEmpty &&
              (scanOrphans fs s.PDF_DIR (selectPaths db.pdfs) pE).isEmpty) = true
          · rw [clean_eq_no_orphans s fs db answer rf uE pE hdb hu hp he]
          · have hne : ((scanOrphans fs s.UPLOAD_DIR (selectPaths db.meetings) uE).isEmpty &&
                (scanOrphans fs s.PDF_DIR (selectPaths db.pdfs) pE).isEmpty) = false := by
              simpa using he
            by_cases hans : strLower answer = "y"
            · rw [clean_eq_confirmed s fs db answer rf uE pE hdb hu hp hne hans]
              exact deleteFiles_fs_dirs rf _ fs
            · rw [clean_eq_abort s fs db answer rf uE pE hdb hu hp hne hans]
  · have hpe2 : pathExists fs (osPathJoin s.DATA_DIR "meetings.db") = false := by
      simpa using hpe
    rw [clean_eq_notfound s fs db answer rf hpe2]

theorem backup_isDir_mono (s : Settings) (fs : FileSystem) (ts x : String)
    (h : isDir fs x = true) : isDir (backup_database s fs ts).fs x = true := by
  by_cases hpe : pathExists fs (osPathJoin s.DATA_DIR "meetings.db") = true
  · rcases hf : lookupStr fs.files (osPathJoin s.DATA_DIR "meetings.db") with _ | bytes
    · simp only [backup_database, hpe, if_true, hf]
      exact isDir_makedirs_mono fs _ x h
    · simp only [backup_database, hpe, if_true, hf]
      have : isDir (writeFile (makedirs fs (osPathJoin s.DATA_DIR "backups"))
          (osPathJoin (osPathJoin s.DATA_DIR "backups") ("meetings_" ++ ts ++ ".db")) bytes) x =
          isDir (makedirs fs (osPathJoin s.DATA_DIR "backups")) x :=
        isDir_congr _ _ x rfl
      rw [this]
      exact isDir_makedirs_mono fs _ x h
  · have hpe2 : pathExists fs (osPathJoin s.DATA_DIR "meetings.db") = false := by
      simpa using hpe
    simpa [backup_database, hpe2] using h

end DbUtils

namespace DbUtils

/-- C4: when at least one orphan was found and the operator's answer,
lower-cased, is not "y", cleanup prints the abort message, returns
failure, deletes nothing, and leaves the filesystem unchanged. -/
theorem clean_declined_leaves_fs_unchanged
    (s : Settings) (fs : FileSystem) (db : Database) (answer : String)
    (rf : List String) (uE pE : List String)
    (hdb : (lookupStr fs.files (osPathJoin s.DATA_DIR "meetings.db")).isSome = true)
    (hu : lookupStr fs.dirs s.UPLOAD_DIR = some uE)
    (hp : lookupStr fs.dirs s.PDF_DIR = some pE)
    (hne : ((scanOrphans fs s.UPLOAD_DIR (selectPaths db.meetings) uE).isEmpty &&
            (scanOrphans fs s.PDF_DIR (selectPaths db.pdfs) pE).isEmpty) = false)
    (hans : ¬ strLower answer = "y") :
    (clean_orphaned_files s fs db answer rf).ok = false ∧
    (clean_orphaned_files s fs db answer rf).fs = fs ∧
    (clean_orphaned_files s fs db answer rf).prompted = true ∧
    (clean_orphaned_files s fs db answer rf).deleted = [] ∧
    "Cleanup aborted" ∈ (clean_orphaned_files s fs db answer rf).output := by
  rw [clean_eq_abort s fs db answer rf uE pE hdb hu hp hne hans]
  refine ⟨rfl, rfl, rfl, rfl, ?_⟩
  simp

/-- Witness for C4: with one orphan present, answering "N" aborts and
leaves the filesystem intact. -/
theorem clean_declined_leaves_fs_unchanged_witness :
    (clean_orphaned_files S0 fsFull db0 "N" []).ok = false ∧
    (clean_orphaned_files S0 fsFull db0 "N" []).fs = fsFull ∧
    (clean_orphaned_files S0 fsFull db0 "N" []).prompted = true ∧
    (clean_orphaned_files S0 fsFull db0 "N" []).deleted = [] ∧
    "Cleanup aborted" ∈ (clean_orphaned_files S0 fsFull db0 "N" []).output :=
  clean_declined_leaves_fs_unchanged S0 fsFull db0 "N" []
    ["a.mp3", "b.mp3", "c.mp3"] ["x.pdf"]
    (by decide) (by decide) (by decide) (by decide) (by decide)

/-- C6: when both orphan sets are empty, cleanup reports success,
never prompts, deletes nothing, leaves the filesystem unchanged, and
its result does not depend on the operator's answer at all. -/
theorem clean_no_orphans_no_prompt
    (s : Settings) (fs : FileSystem) (db : Database) (answer : String)
    (rf : List String) (uE pE : List String)
    (hdb : (lookupStr fs.files (osPathJoin s.DATA_DIR "meetings.db")).isSome = true)
    (hu : lookupStr fs.dirs s.UPLOAD_DIR = some uE)
    (hp : lookupStr fs.dirs s.PDF_DIR = some pE)
    (he : ((scanOrphans fs s.UPLOAD_DIR (selectPaths db.meetings) uE).isEmpty &&
           (scanOrphans fs s.PDF_DIR (selectPaths db.pdfs) pE).isEmpty) = true) :
    (clean_orphaned_files s fs db answer rf).ok = true ∧
    (clean_orphaned_files s fs db answer rf).prompted = false ∧
    (clean_orphaned_files s fs db answer rf).fs = fs ∧
    (clean_orphaned_files s fs db answer rf).deleted = [] ∧
    "No orphaned files to clean up" ∈ (clean_orphaned_files s fs db answer rf).output ∧
    ∀ answer2, clean_orphaned_files s fs db answer2 rf =
      clean_orphaned_files s fs db answer rf := by
  have hrec := clean_eq_no_orphans s fs db answer rf uE pE hdb hu hp he
  refine ⟨?_, ?_, ?_, ?_, ?_, ?_⟩
  · rw [hrec]
  · rw [hrec]
  · rw [hrec]
  · rw [hrec]
  · rw [hrec]; simp
  · intro answer2
    rw [clean_eq_no_orphans s fs db answer2 rf uE pE hdb hu hp he, hrec]

/-- Witness for C6: with every file covered by the database, cleanup
succeeds without prompting and is independent of the answer. -/
theorem clean_no_orphans_no_prompt_witness :
    (clean_orphaned_files S0 fsFull dbAll "n" []).ok = true ∧
    (clean_orphaned_files S0 fsFull dbAll "n" []).prompted = false ∧
    (clean_orphaned_files S0 fsFull dbAll "n" []).fs = fsFull ∧
    (clean_orphaned_files S0 fsFull dbAll "n" []).deleted = [] ∧
    "No orphaned files to clean up" ∈ (clean_orphaned_files S0 fsFull dbAll "n" []).output ∧
    clean_orphaned_files S0 fsFull dbAll "y" [] =
      clean_orphaned_files S0 fsFull dbAll "n" [] := by
  have h := clean_no_orphans_no_prompt S0 fsFull dbAll "n" []
    ["a.mp3", "b.mp3", "c.mp3"] ["x.pdf"]
    (by decide) (by decide) (by decide) (by decide)
  exact ⟨h.1, h.2.1, h.2.2.1, h.2.2.2.1, h.2.2.2.2.1, h.2.2.2.2.2 "y"⟩

/-- C10: when the database file is present but a directory listing
raises (the directory is absent), the outer handler catches the error:
cleanup returns failure, prints the error message, never prompts, and
deletes nothing — the filesystem is unchanged because both listings
happen before any deletion. -/
theorem clean_listdir_error_no_deletion
    (s : Settings) (fs : FileSystem) (db : Database) (answer : String)
    (rf : List String)
    (hdb : (lookupStr fs.files (osPathJoin s.DATA_DIR "meetings.db")).isSome = true)
    (h : lookupStr fs.dirs s.UPLOAD_DIR = none ∨ lookupStr fs.dirs s.PDF_DIR = none) :
    (clean_orphaned_files s fs db answer rf).ok = false ∧
    (clean_orphaned_files s fs db answer rf).fs = fs ∧
    (clean_orphaned_files s fs db answer rf).deleted = [] ∧
    (clean_orphaned_files s fs db answer rf).prompted = false ∧
    "Error cleaning orphaned files" ∈ (clean_orphaned_files s fs db answer rf).output := by
  rw [clean_eq_listdir_fail s fs db answer rf hdb h]
  exact ⟨rfl, rfl, rfl, rfl, by simp⟩

/-- Witness for C10: the PDF directory is missing, so its listing
raises; nothing is deleted even though the answer is "y". -/
theorem clean_listdir_error_no_deletion_witness :
    (clean_orphaned_files S0 fsNoPdfDir db0 "y" []).ok = false ∧
    (clean_orphaned_files S0 fsNoPdfDir db0 "y" []).fs = fsNoPdfDir ∧
    (clean_orphaned_files S0 fsNoPdfDir db0 "y" []).deleted = [] ∧
    (clean_orphaned_files S0 fsNoPdfDir db0 "y" []).prompted = false ∧
    "Error cleaning orphaned files" ∈ (clean_orphaned_files S0 fsNoPdfDir db0 "y" []).output :=
  clean_listdir_error_no_deletion S0 fsNoPdfDir db0 "y" []
    (by decide) (Or.inr (by decide))

end DbUtils

namespace DbUtils

/-- C5: on a confirmed run, each orphan is deleted individually; a
failing deletion is logged with its path and does not stop the loop;
the reported count equals exactly the number of successful deletions;
and afterwards exactly the successfully deleted paths are gone. -/
theorem clean_partial_delete_failures
    (s : Settings) (fs : FileSystem) (db : Database) (answer : String)
    (rf : List String) (uE pE : List String)
    (hdb : (lookupStr fs.files (osPathJoin s.DATA_DIR "meetings.db")).isSome = true)
    (hu : lookupStr fs.dirs s.UPLOAD_DIR = some uE)
    (hp : lookupStr fs.dirs s.PDF_DIR = some pE)
    (hne : ((scanOrphans fs s.UPLOAD_DIR (selectPaths db.meetings) uE).isEmpty &&
            (scanOrphans fs s.PDF_DIR (selectPaths db.pdfs) pE).isEmpty) = false)
    (hans : strLower answer = "y")
    (hnd : (scanOrphans fs s.UPLOAD_DIR (selectPaths db.meetings) uE ++
            scanOrphans fs s.PDF_DIR (selectPaths db.pdfs) pE).Nodup) :
    (clean_orphaned_files s fs db answer rf).ok = true ∧
    (clean_orphaned_files s fs db answer rf).deleted =
      (scanOrphans fs s.UPLOAD_DIR (selectPaths db.meetings) uE ++
        scanOrphans fs s.PDF_DIR (selectPaths db.pdfs) pE).filter
          (fun p => decide (p ∉ rf)) ∧
    (clean_orphaned_files s fs db answer rf).output =
      ["Found " ++ toString (scanOrphans fs s.UPLOAD_DIR (selectPaths db.meetings) uE).length ++ " orphaned upload files",
       "Found " ++ toString (scanOrphans fs s.PDF_DIR (selectPaths db.pdfs) pE).length ++ " orphaned PDF files"] ++
      ((scanOrphans fs s.UPLOAD_DIR (selectPaths db.meetings) uE ++
          scanOrphans fs s.PDF_DIR (selectPaths db.pdfs) pE).filter
            (fun p => decide (p ∈ rf))).map (fun p => "Failed to delete " ++ p) ++
      ["Deleted " ++ toString (((scanOrphans fs s.UPLOAD_DIR (selectPaths db.meetings) uE ++
          scanOrphans fs s.PDF_DIR (selectPaths db.pdfs) pE).filter
            (fun p => decide (p ∉ rf))).length) ++ " orphaned files"] ∧
    ∀ q, lookupStr (clean_orphaned_files s fs db answer rf).fs.files q =
      if q ∈ (scanOrphans fs s.UPLOAD_DIR (selectPaths db.meetings) uE ++
          scanOrphans fs s.PDF_DIR (selectPaths db.pdfs) pE).filter
            (fun p => decide (p ∉ rf)) then none
      else lookupStr fs.files q := by
  have hfiles : ∀ p ∈ scanOrphans fs s.UPLOAD_DIR (selectPaths db.meetings) uE ++
      scanOrphans fs s.PDF_DIR (selectPaths db.pdfs) pE,
      (lookupStr fs.files p).isSome = true := by
    intro p hpm
    rcases List.mem_append.mp hpm with hm | hm
    · obtain ⟨name, _, hq, hf, _⟩ := mem_scanOrphans.mp hm
      exact hf
    · obtain ⟨name, _, hq, hf, _⟩ := mem_scanOrphans.mp hm
      exact hf
  obtain ⟨h1, h2, h3, h4⟩ := deleteFiles_spec rf
    (scanOrphans fs s.UPLOAD_DIR (selectPaths db.meetings) uE ++
      scanOrphans fs s.PDF_DIR (selectPaths db.pdfs) pE) fs hnd hfiles
  rw [clean_eq_confirmed s fs db answer rf uE pE hdb hu hp hne hans]
  refine ⟨rfl, h1, ?_, fun q => h4 q⟩
  show ["Found " ++ toString (scanOrphans fs s.UPLOAD_DIR (selectPaths db.meetings) uE).length ++ " orphaned upload files",
        "Found " ++ toString (scanOrphans fs s.PDF_DIR (selectPaths db.pdfs) pE).length ++ " orphaned PDF files"] ++
      (deleteFiles fs rf (scanOrphans fs s.UPLOAD_DIR (selectPaths db.meetings) uE ++
        scanOrphans fs s.PDF_DIR (selectPaths db.pdfs) pE)).failOutput ++
      ["Deleted " ++ toString (deleteFiles fs rf (scanOrphans fs s.UPLOAD_DIR (selectPaths db.meetings) uE ++
        scanOrphans fs s.PDF_DIR (selectPaths db.pdfs) pE)).deleted_count ++ " orphaned files"] = _
  rw [h3, h2]

/-- Witness for C5: two orphans, deleting `b.mp3` fails, `c.mp3` is
still deleted, the failure is logged, and the reported count is 1. -/
theorem clean_partial_delete_failures_witness :
    (clean_orphaned_files S0 fsFull db1 "y" ["/up/b.mp3"]).ok = true ∧
    (clean_orphaned_files S0 fsFull db1 "y" ["/up/b.mp3"]).deleted = ["/up/c.mp3"] ∧
    (clean_orphaned_files S0 fsFull db1 "y" ["/up/b.mp3"]).output =
      ["Found 2 orphaned upload files", "Found 0 orphaned PDF files",
       "Failed to delete /up/b.mp3", "Deleted 1 orphaned files"] ∧
    lookupStr (clean_orphaned_files S0 fsFull db1 "y" ["/up/b.mp3"]).fs.files "/up/c.mp3" = none ∧
    lookupStr (clean_orphaned_files S0 fsFull db1 "y" ["/up/b.mp3"]).fs.files "/up/b.mp3" =
      lookupStr fsFull.files "/up/b.mp3" := by
  have h := clean_partial_delete_failures S0 fsFull db1 "y" ["/up/b.mp3"]
    ["a.mp3", "b.mp3", "c.mp3"] ["x.pdf"]
    (by decide) (by decide) (by decide) (by decide) (by decide) (by decide)
  refine ⟨h.1, h.2.1.trans (by decide), h.2.2.1.trans (by decide), ?_, ?_⟩
  · rw [h.2.2.2 "/up/c.mp3"]; decide
  · rw [h.2.2.2 "/up/b.mp3"]; decide

/-- C7: after a successful backup taken at clock time `now`, the backup
directory `DATA_DIR/backups` exists, and the file at
`DATA_DIR/backups/meetings_<YYYYMMDD_HHMMSS>.db` (timestamp at second
resolution) holds exactly the bytes of the source database file. -/
theorem backup_success_byte_identical
    (s : Settings) (fs : FileSystem) (now : DateTime)
    (h : (backup_database s fs (strftimeTimestamp now)).ok = true) :
    isDir (backup_database s fs (strftimeTimestamp now)).fs
        (osPathJoin s.DATA_DIR "backups") = true ∧
    lookupStr (backup_database s fs (strftimeTimestamp now)).fs.files
        (osPathJoin (osPathJoin s.DATA_DIR "backups")
          ("meetings_" ++ strftimeTimestamp now ++ ".db")) =
      lookupStr fs.files (osPathJoin s.DATA_DIR "meetings.db") ∧
    (lookupStr fs.files (osPathJoin s.DATA_DIR "meetings.db")).isSome = true := by
  by_cases hpe : pathExists fs (osPathJoin s.DATA_DIR "meetings.db") = true
  · rcases hf : lookupStr fs.files (osPathJoin s.DATA_DIR "meetings.db") with _ | bytes
    · simp [backup_database, hpe, hf] at h
    · have hb : backup_database s fs (strftimeTimestamp now) =
          { ok := true
            output := ["Database backed up to: " ++
              osPathJoin (osPathJoin s.DATA_DIR "backups")
                ("meetings_" ++ strftimeTimestamp now ++ ".db")]
            fs := writeFile (makedirs fs (osPathJoin s.DATA_DIR "backups"))
              (osPathJoin (osPathJoin s.DATA_DIR "backups")
                ("meetings_" ++ strftimeTimestamp now ++ ".db")) bytes } := by
        simp [backup_database, hpe, hf]
      rw [hb]
      refine ⟨?_, ?_, rfl⟩
      · rw [isDir_congr (writeFile (makedirs fs (osPathJoin s.DATA_DIR "backups"))
            (osPathJoin (osPathJoin s.DATA_DIR "backups")
              ("meetings_" ++ strftimeTimestamp now ++ ".db")) bytes)
            (makedirs fs (osPathJoin s.DATA_DIR "backups"))
            (osPathJoin s.DATA_DIR "backups") rfl]
        exact isDir_makedirs_self fs _
      · simp [writeFile, lookupStr]
  · have hpe2 : pathExists fs (osPathJoin s.DATA_DIR "meetings.db") = false := by
      simpa using hpe
    simp [backup_database, hpe2] at h

/-- Witness for C7 at a concrete clock time. -/
theorem backup_success_byte_identical_witness :
    isDir (backup_database S0 fsFull (strftimeTimestamp ⟨2026, 1, 2, 3, 4, 5⟩)).fs
        (osPathJoin S0.DATA_DIR "backups") = true ∧
    lookupStr (backup_database S0 fsFull (strftimeTimestamp ⟨2026, 1, 2, 3, 4, 5⟩)).fs.files
        (osPathJoin (osPathJoin S0.DATA_DIR "backups")
          ("meetings_" ++ strftimeTimestamp ⟨2026, 1, 2, 3, 4, 5⟩ ++ ".db")) =
      lookupStr fsFull.files (osPathJoin S0.DATA_DIR "meetings.db") ∧
    (lookupStr fsFull.files (osPathJoin S0.DATA_DIR "meetings.db")).isSome = true :=
  backup_success_byte_identical S0 fsFull ⟨2026, 1, 2, 3, 4, 5⟩ (by decide)

end DbUtils

namespace DbUtils

theorem parseArgs_eq (argv : List String) :
    ∀ a : Args,
      parseArgs argv a =
        if argv.all (fun x => x == "--check" || x == "--backup" || x == "--clean") then
          some ⟨a.check || decide ("--check" ∈ argv),
                a.backup || decide ("--backup" ∈ argv),
                a.clean || decide ("--clean" ∈ argv)⟩
        else none := by
  induction argv with
  | nil =>
    intro a
    simp [parseArgs]
  | cons arg rest ih =>
    intro a
    simp only [parseArgs, ih]
    by_cases h1 : arg = "--check"
    · subst h1
      have e2 : ¬ ("--backup" : String) = "--check" := by decide
      have e3 : ¬ ("--clean" : String) = "--check" := by decide
      simp [List.all_cons, List.mem_cons, e2, e3]
    · by_cases h2 : arg = "--backup"
      · subst h2
        have e1 : ¬ ("--backup" : String) = "--check" := by decide
        have e2 : ¬ ("--check" : String) = "--backup" := by decide
        have e3 : ¬ ("--clean" : String) = "--backup" := by decide
        simp [List.all_cons, List.mem_cons, e1, e2, e3]
      · by_cases h3 : arg = "--clean"
        · subst h3
          have e1 : ¬ ("--clean" : String) = "--check" := by decide
          have e2 : ¬ ("--clean" : String) = "--backup" := by decide
          have e3 : ¬ ("--check" : String) = "--clean" := by decide
          have e4 : ¬ ("--backup" : String) = "--clean" := by decide
          simp [List.all_cons, List.mem_cons, e1, e2, e3, e4]
        · have hv : (arg == "--check" || arg == "--backup" || arg == "--clean") = false := by
            simp [h1, h2, h3]
          simp [List.all_cons, List.mem_cons, h1, h2, h3, hv]

/-- C8: the requested operations run in the fixed order check, backup,
clean; a permutation of the flags parses identically and produces the
identical run; and with no flags `main` prints help, runs nothing, and
leaves the filesystem untouched. -/
theorem main_fixed_dispatch_order
    (s : Settings) (fs : FileSystem) (db : Database) (now : DateTime)
    (answer : String) (rf : List String) (argv argv2 : List String) (args : Args)
    (hparse : parseArgs argv Args.default = some args) :
    ((main s fs db argv now answer rf).trace =
      (if args.check then [Op.check] else []) ++
      (if args.backup then [Op.backup] else []) ++
      (if args.clean then [Op.clean] else [])) ∧
    (argv.Perm argv2 →
      main s fs db argv2 now answer rf = main s fs db argv now answer rf) ∧
    (args = ⟨false, false, false⟩ →
      (main s fs db argv now answer rf).output = ["help"] ∧
      (main s fs db argv now answer rf).fs = fs ∧
      (main s fs db argv now answer rf).trace = []) := by
  refine ⟨?_, ?_, ?_⟩
  · rcases args with ⟨c, b, cl⟩
    cases c <;> cases b <;> cases cl <;> simp [main, hparse]
  · intro hperm
    have hall := parseArgs_eq argv Args.default
    rw [hparse] at hall
    by_cases hv : argv.all (fun x => x == "--check" || x == "--backup" || x == "--clean") = true
    · have hv2 : argv2.all (fun x => x == "--check" || x == "--backup" || x == "--clean") = true := by
        rw [List.all_eq_true] at hv ⊢
        intro x hx
        exact hv x (hperm.mem_iff.mpr hx)
      rw [if_pos hv] at hall
      have hp2 : parseArgs argv2 Args.default = some args := by
        rw [parseArgs_eq argv2 Args.default, if_pos hv2,
          decide_eq_decide.mpr hperm.mem_iff.symm,
          decide_eq_decide.mpr hperm.mem_iff.symm,
          decide_eq_decide.mpr hperm.mem_iff.symm]
        exact hall.symm
      simp only [main, hp2, hparse]
    · rw [if_neg hv] at hall
      cases hall
  · intro he
    subst he
    simp [main, hparse]

/-- Witness for C8: `--clean --check` still runs check before clean,
and swapping the two flags yields the identical run. -/
theorem main_fixed_dispatch_order_witness :
    (main S0 fsFull db0 ["--clean", "--check"] ⟨2026, 1, 1, 12, 0, 0⟩ "n" []).trace =
      [Op.check, Op.clean] ∧
    main S0 fsFull db0 ["--check", "--clean"] ⟨2026, 1, 1, 12, 0, 0⟩ "n" [] =
      main S0 fsFull db0 ["--clean", "--check"] ⟨2026, 1, 1, 12, 0, 0⟩ "n" [] := by
  have h := main_fixed_dispatch_order S0 fsFull db0 ⟨2026, 1, 1, 12, 0, 0⟩ "n" []
    ["--clean", "--check"] ["--check", "--clean"] ⟨true, false, true⟩ (by decide)
  exact ⟨h.1, h.2.1 (List.Perm.swap "--check" "--clean" [])⟩

/-- C9: with at least one flag set, `main` creates `DATA_DIR` before
dispatching, so the directory exists after the run — even when the only
flag is the read-only `--check`. -/
theorem main_creates_data_dir
    (s : Settings) (fs : FileSystem) (db : Database) (now : DateTime)
    (answer : String) (rf : List String) (argv : List String) (args : Args)
    (hparse : parseArgs argv Args.default = some args)
    (hflag : (args.check || args.backup || args.clean) = true) :
    isDir (main s fs db argv now answer rf).fs s.DATA_DIR = true := by
  have hd0 : isDir (makedirs fs s.DATA_DIR) s.DATA_DIR = true :=
    isDir_makedirs_self fs s.DATA_DIR
  have hcheck : ∀ g : FileSystem, isDir g s.DATA_DIR = true →
      isDir (check_database s g db).fs s.DATA_DIR = true := by
    intro g hg
    rw [check_database_fs]
    exact hg
  have hback : ∀ g : FileSystem, isDir g s.DATA_DIR = true →
      isDir (backup_database s g (strftimeTimestamp now)).fs s.DATA_DIR = true :=
    fun g hg => backup_isDir_mono s g _ _ hg
  have hclean : ∀ g : FileSystem, isDir g s.DATA_DIR = true →
      isDir (clean_orphaned_files s g db answer rf).fs s.DATA_DIR = true := by
    intro g hg
    rw [isDir_congr _ g _ (clean_fs_dirs s g db answer rf)]
    exact hg
  rcases args with ⟨c, b, cl⟩
  cases c <;> cases b <;> cases cl
  · simp at hflag
  · simp only [main, hparse]
    simp only [Bool.or_false, Bool.false_or, if_true, if_false]
    exact hclean _ hd0
  · simp only [main, hparse]
    simp only [Bool.or_false, Bool.false_or, if_true, if_false]
    exact hback _ hd0
  · simp only [main, hparse]
    simp only [Bool.or_false, Bool.false_or, Bool.or_true, Bool.true_or, if_true, if_false]
    exact hclean _ (hback _ hd0)
  · simp only [main, hparse]
    simp only [Bool.or_false, Bool.false_or, Bool.true_or, if_true, if_false]
    exact hcheck _ hd0
  · simp only [main, hparse]
    simp only [Bool.or_false, Bool.false_or, Bool.true_or, if_true, if_false]
    exact hclean _ (hcheck _ hd0)
  · simp only [main, hparse]
    simp only [Bool.or_false, Bool.false_or, Bool.true_or, if_true, if_false]
    exact hback _ (hcheck _ hd0)
  · simp only [main, hparse]
    simp only [Bool.or_false, Bool.false_or, Bool.true_or, if_true, if_false]
    exact hclean _ (hback _ (hcheck _ hd0))

/-- Witness for C9: running only `--check` on an empty filesystem still
leaves `DATA_DIR` created. -/
theorem main_creates_data_dir_witness :
    isDir (main S0 fsEmpty db0 ["--check"] ⟨2026, 1, 1, 12, 0, 0⟩ "n" []).fs
      S0.DATA_DIR = true :=
  main_creates_data_dir S0 fsEmpty db0 ⟨2026, 1, 1, 12, 0, 0⟩ "n" [] ["--check"]
    ⟨true, false, false⟩ (by decide) (by decide)

end DbUtils
